import Mathlib

/-!
Shallow embedding of src/modules/mpris/mpris.cpp (the Waybar mpris module).

The playerctl library, GLib and fmt are external collaborators; a value each of
their calls returns during one pass is recorded in an environment structure
(FetchEnv, UpdateEnv, ClickEnv).  A char pointer that may be NULL is an
Option String; a call that may set its GError out-parameter is an
Except String value.  Writing through a NULL pointer or dereferencing an
absent std::optional is undefined behavior in the source; it is modelled by a
dedicated failure outcome (FetchResult.ub, UpdResult.ub, none).
-/

namespace Mpris

/-- Playback status reported by the player (PlayerctlPlaybackStatus). -/
inductive PlaybackStatus
  | Playing
  | Paused
  | Stopped
deriving DecidableEq

/-- Snapshot of a player's displayable state (struct PlayerInfo). -/
structure PlayerInfo where
  name : String
  status : PlaybackStatus
  status_string : String
  artist : Option String := none
  album : Option String := none
  title : Option String := none
  length : Option String := none
deriving DecidableEq

/-- ASCII lowercase of one character, as std::tolower does in the C locale. -/
def asciiLower (c : Char) : Char :=
  if 65 ≤ c.toNat ∧ c.toNat ≤ 90 then Char.ofNat (c.toNat + 32) else c

/-- In-place lowercase of the first character (mpris.cpp line 187,
player_status[0] = tolower(player_status[0])).  On an empty C string the
write stores the terminator over itself, leaving the string empty; a NULL
pointer is handled by the caller as undefined behavior. -/
def lowerFirst (s : String) : String :=
  match s.data with
  | [] => s
  | c :: cs => String.mk (asciiLower c :: cs)

/-- Escape of one character as done by Glib.Markup.escape_text on printable
text: ampersand, the angle brackets and both quote characters become
entities, every other character stands for itself. -/
def escapeChar (c : Char) : List Char :=
  if c = '&' then ("&amp;").data
  else if c = '<' then ("&lt;").data
  else if c = '>' then ("&gt;").data
  else if c = Char.ofNat 39 then ("&apos;").data
  else if c = Char.ofNat 34 then ("&quot;").data
  else [c]

/-- Character-list form of the markup escape. -/
def escapeChars : List Char → List Char
  | [] => []
  | c :: cs => escapeChar c ++ escapeChars cs

/-- Glib.Markup.escape_text as used on artist, album and title values. -/
def escapeMarkup (s : String) : String := String.mk (escapeChars s.data)

/-- Value of the leading decimal digits of a character list (the
digit-consuming loop of std::strtol in base 10), stopping at the first
non-digit. -/
def digitsVal : List Char → Nat → Nat
  | c :: cs, acc => if c.isDigit then digitsVal cs (10 * acc + (c.toNat - 48)) else acc
  | [], acc => acc

/-- Skip the leading C whitespace characters, as std::strtol does. -/
def skipSpaces : List Char → List Char
  | c :: cs =>
    if c = ' ' ∨ (9 ≤ c.toNat ∧ c.toNat ≤ 13) then skipSpaces cs else c :: cs
  | [] => []

/-- Model of std::strtol(s, nullptr, 10) on a 64-bit long: skip leading
whitespace, read an optional sign and the leading digits (value 0 when there
are none), clamping to the long range on overflow. -/
def strtolDec (s : String) : Int :=
  let cs := skipSpaces s.data
  let v : Int :=
    match cs with
    | c :: rest =>
      if c = '-' then -(digitsVal rest 0 : Int)
      else if c = '+' then (digitsVal rest 0 : Int)
      else (digitsVal cs 0 : Int)
    | [] => 0
  max (-(2 ^ 63)) (min (2 ^ 63 - 1) v)

/-- Zero padding to width 2, the fmt format spec 02 used for the duration
components. -/
def pad2 (n : Int) : String :=
  if 0 ≤ n ∧ n < 10 then ("0") ++ toString n else toString n

/-- Conversion of a microsecond count to the displayed duration string
(mpris.cpp lines 225-231): none when the count is not positive; otherwise
len_h = hours of len, len_m = minutes of (len - len_h), and
len_s = seconds of (len - len_m) — the seconds remainder subtracts only the
minutes component, exactly as the source computes it. -/
def formatLength (usec : Int) : Option String :=
  if usec > 0 then
    let lenH := usec / 3600000000
    let lenM := (usec - lenH * 3600000000) / 60000000
    let lenS := (usec - lenM * 60000000) / 1000000
    if lenH > 0 then some (pad2 lenH ++ (":") ++ pad2 lenM ++ (":") ++ pad2 lenS)
    else some (pad2 lenM ++ (":") ++ pad2 lenS)
  else none

/-- One parsed piece of a fmt format string: literal text or a named
placeholder. -/
inductive TItem
  | lit (s : String)
  | ph (nm : String)
deriving DecidableEq

/-- A format template, in parsed form. -/
abbrev Template := List TItem

/-- The default format string of the module (mpris.cpp line 17), in parsed
form. -/
def DEFAULT_FORMAT : Template :=
  [TItem.ph ("player"), TItem.lit (" ("), TItem.ph ("status"), TItem.lit ("): "),
   TItem.ph ("dynamic")]

/-- Configuration consumed by the module (mpris.cpp lines 33-56).  An unset
status-specific format is the empty template, matching the empty-string
default of the source fields. -/
structure Config where
  player : String
  ignoredPlayers : List String
  format : Template
  formatPlaying : Template
  formatPaused : Template
  formatStopped : Template
  playerIcons : Option (List (String × String))
  statusIcons : Option (List (String × String))
  onClick : Option String
  onMiddleClick : Option String
  onRightClick : Option String
  interval : Nat
deriving DecidableEq

deriving instance DecidableEq for Except

/-- Values the playerctl library hands to one invocation of getPlayerInfo.
none stands for a NULL char pointer; Except.error for a call that set its
GError out-parameter. -/
structure FetchEnv where
  rawStatus : Option String
  playbackStatus : PlaybackStatus
  listPlayers : Except String (List String)
  artistR : Except String (Option String)
  albumR : Except String (Option String)
  titleR : Except String (Option String)
  lengthR : Except String (Option String)
deriving DecidableEq

/-- Outcome of one call to Mpris::getPlayerInfo.  noData is std::nullopt;
dirError is the runtime_error thrown when playerctl_list_players fails; ub
marks the undefined behavior of writing through a NULL status pointer. -/
inductive FetchResult
  | ub
  | dirError (msg : String)
  | noData
  | info (i : PlayerInfo)
deriving DecidableEq

/-- Boolean success test of an Except value. -/
def exOk {ε α : Type} : Except ε α → Bool
  | Except.ok _ => true
  | Except.error _ => false

/-- Resolution of the configured player name (mpris.cpp lines 166-178): the
alias playerctld is replaced by the first (most recently active) player of a
successful, non-empty listing; a listing failure becomes the thrown error. -/
def resolveName (cfg : Config) (env : FetchEnv) : Except String String :=
  if cfg.player = ("playerctld") then
    match env.listPlayers with
    | Except.error msg => Except.error (("unable to list players: ") ++ msg)
    | Except.ok players => Except.ok (players.headD cfg.player)
  else Except.ok cfg.player

/-- Inclusion of one optional string field (mpris.cpp lines 195-219): a NULL
result is skipped, a non-empty result is stored markup-escaped, an empty
result is skipped. -/
def fieldVal : Option String → Option String
  | some s => if s.length > 0 then some (escapeMarkup s) else none
  | none => none

/-- Inclusion of the length field (mpris.cpp lines 222-234): the raw metadata
string is parsed with strtol and formatted when positive. -/
def lengthVal : Option String → Option String
  | some ls => formatLength (strtolDec ls)
  | none => none

/-- Mpris::getPlayerInfo (mpris.cpp lines 154-243).  The hasPlayer flag is the
NULL test of the player handle at entry.  Field queries run in source order:
a GError from any of artist, album, title or length jumps to errorexit, which
logs and returns std::nullopt. -/
def getPlayerInfo (cfg : Config) (hasPlayer : Bool) (env : FetchEnv) : FetchResult :=
  if !hasPlayer then FetchResult.noData
  else
    match resolveName cfg env with
    | Except.error msg => FetchResult.dirError msg
    | Except.ok playerName =>
      if cfg.ignoredPlayers.contains playerName then FetchResult.noData
      else
        match env.rawStatus with
        | none => FetchResult.ub
        | some raw =>
          match env.artistR with
          | Except.error _ => FetchResult.noData
          | Except.ok aOpt =>
            match env.albumR with
            | Except.error _ => FetchResult.noData
            | Except.ok alOpt =>
              match env.titleR with
              | Except.error _ => FetchResult.noData
              | Except.ok tOpt =>
                match env.lengthR with
                | Except.error _ => FetchResult.noData
                | Except.ok lOpt =>
                  FetchResult.info
                    { name := playerName
                      status := env.playbackStatus
                      status_string := lowerFirst raw
                      artist := fieldVal aOpt
                      album := fieldVal alOpt
                      title := fieldVal tOpt
                      length := lengthVal lOpt }

/-- The dynamic composite string (mpris.cpp lines 319-333).  The source lacks
braces around the album and title blocks, so the writes of *info.album and of
*info.title run unconditionally; dereferencing an absent optional is undefined
behavior, modelled as none.  The separators are appended exactly under the
conditions of the nested ifs, and the length is wrapped in small markup
tags. -/
def buildDynamic (i : PlayerInfo) : Option String :=
  let s0 :=
    match i.artist with
    | some a => a
    | none => ("")
  let s1 := if i.album.isSome ∧ i.artist.isSome then s0 ++ (" - ") else s0
  match i.album with
  | none => none
  | some al =>
    let s2 := s1 ++ al
    let s3 :=
      if i.title.isSome ∧ (i.artist.isSome ∨ i.album.isSome) then s2 ++ (" - ") else s2
    match i.title with
    | none => none
    | some t =>
      let s4 := s3 ++ t
      some
        (match i.length with
         | some l => s4 ++ (" <small>[") ++ l ++ ("]</small>")
         | none => s4)

/-- Mpris::getIcon (mpris.cpp lines 84-93): the key entry, else the default
entry, else the empty string; a non-object icons value yields empty. -/
def getIcon (icons : Option (List (String × String))) (key : String) : String :=
  match icons with
  | some table =>
    match table.lookup key with
    | some v => v
    | none =>
      match table.lookup ("default") with
      | some v => v
      | none => ("")
  | none => ("")

/-- Substitution of named arguments into a parsed format string, the
fmt::format call of mpris.cpp lines 365-371: a placeholder with no matching
named argument makes fmt::format throw, modelled as none. -/
def renderTemplate : Template → List (String × String) → Option String
  | [], _ => some ("")
  | TItem.lit s :: rest, args => (renderTemplate rest args).map (fun r => s ++ r)
  | TItem.ph nm :: rest, args =>
    match args.lookup nm with
    | none => none
    | some v => (renderTemplate rest args).map (fun r => v ++ r)

/-- The nine named arguments of the fmt::format call (mpris.cpp lines
366-371).  All of them are evaluated before formatting starts, so
*info.artist, *info.title, *info.album and *info.length are dereferenced
whatever the template mentions; an absent field is undefined behavior,
modelled as none. -/
def buildArgs (cfg : Config) (i : PlayerInfo) (dyn : String) :
    Option (List (String × String)) :=
  match i.artist, i.title, i.album, i.length with
  | some a, some t, some al, some l =>
    some [(("player"), i.name), (("status"), i.status_string), (("artist"), a),
          (("title"), t), (("album"), al), (("length"), l), (("dynamic"), dyn),
          (("player_icon"), getIcon cfg.playerIcons i.name),
          (("status_icon"), getIcon cfg.statusIcons i.status_string)]
  | _, _, _, _ => none

/-- Per-status template selection (mpris.cpp lines 353-364): a non-empty
status-specific format overrides the general one. -/
def selectTemplate (cfg : Config) (st : PlaybackStatus) : Template :=
  match st with
  | PlaybackStatus.Playing => if cfg.formatPlaying ≠ [] then cfg.formatPlaying else cfg.format
  | PlaybackStatus.Paused => if cfg.formatPaused ≠ [] then cfg.formatPaused else cfg.format
  | PlaybackStatus.Stopped => if cfg.formatStopped ≠ [] then cfg.formatStopped else cfg.format

/-- One css class replacement on the box (mpris.cpp lines 336-342 and
345-351): the previous class is removed when non-empty and present, then the
current one is added when missing. -/
def updClass (classes : List String) (last cur : String) : List String :=
  let c1 := if last ≠ ("") ∧ classes.contains last then classes.erase last else classes
  if c1.contains cur then c1 else c1 ++ [cur]

/-- Observable display state of the hosted widget: visibility of the event
box, the label markup, the style classes of the box, and the remembered
lastStatus / lastPlayer class names. -/
structure DisplayState where
  visible : Bool
  label : String
  classes : List String
  lastStatus : String
  lastPlayer : String
deriving DecidableEq

/-- Module state an update pass reads and writes: whether the player handle
is non-NULL, plus the display state. -/
structure ModState where
  hasPlayer : Bool
  display : DisplayState
deriving DecidableEq

/-- External values one Mpris::update pass consumes: the result of
playerctl_player_new_from_name when a connection is attempted, and the fetch
environment of the getPlayerInfo call. -/
structure UpdateEnv where
  connectR : Except String Unit
  fetch : FetchEnv
deriving DecidableEq

/-- Outcome of one Mpris::update pass.  connError and dirError carry the
thrown message together with the module state at the throw point; ub marks an
undefined dereference; fmtError a fmt::format exception for a placeholder
with no matching argument; done carries the new state and the template that
was handed to fmt::format, none when the pass returned before selecting
one. -/
inductive UpdResult
  | connError (msg : String) (st : ModState)
  | dirError (msg : String) (st : ModState)
  | ub
  | fmtError (st : ModState)
  | done (st : ModState) (used : Option Template)
deriving DecidableEq

/-- Mpris::update (mpris.cpp lines 282-377). -/
def update (cfg : Config) (st : ModState) (env : UpdateEnv) : UpdResult :=
  let conn : Except String Unit :=
    if st.hasPlayer then Except.ok () else
      match env.connectR with
      | Except.error m =>
        Except.error (("unable to connect to player ") ++ cfg.player ++ (": ") ++ m)
      | Except.ok _ => Except.ok ()
  match conn with
  | Except.error m => UpdResult.connError m st
  | Except.ok _ =>
    let st1 : ModState := { st with hasPlayer := true }
    match getPlayerInfo cfg true env.fetch with
    | FetchResult.dirError m => UpdResult.dirError m st1
    | FetchResult.ub => UpdResult.ub
    | FetchResult.noData =>
      UpdResult.done { st1 with display := { st1.display with visible := false } } none
    | FetchResult.info i =>
      if i.status = PlaybackStatus.Stopped then
        UpdResult.done { st1 with display := { st1.display with visible := false } } none
      else
        match buildDynamic i with
        | none => UpdResult.ub
        | some dyn =>
          let cl1 := updClass st1.display.classes st1.display.lastStatus i.status_string
          let cl2 := updClass cl1 st1.display.lastPlayer i.name
          let tmpl := selectTemplate cfg i.status
          match buildArgs cfg i dyn with
          | none => UpdResult.ub
          | some args =>
            match renderTemplate tmpl args with
            | none =>
              UpdResult.fmtError
                { st1 with display :=
                    { st1.display with
                        classes := cl2
                        lastStatus := i.status_string
                        lastPlayer := i.name } }
            | some txt =>
              UpdResult.done
                { st1 with display :=
                    { visible := true
                      label := txt
                      classes := cl2
                      lastStatus := i.status_string
                      lastPlayer := i.name } }
                (some tmpl)

/-- Observable steps a playerctl manager callback performs on the module. -/
inductive Action
  | sleepSec (n : Nat)
  | clearPlayer
  | emitRefresh
deriving DecidableEq

/-- Trace of Mpris::onPlayerNameAppeared (mpris.cpp lines 95-109) for a
signal naming any player: one second of sleep, then the player handle is
dropped, then one refresh is requested. -/
def onPlayerNameAppeared (playerName : String) : List Action :=
  [Action.sleepSec 1, Action.clearPlayer, Action.emitRefresh]

/-- Trace of Mpris::onPlayerNameVanished (mpris.cpp lines 111-119) for a
signal naming any player: the player handle is dropped and one refresh is
requested immediately, with no sleep. -/
def onPlayerNameVanished (playerName : String) : List Action :=
  [Action.clearPlayer, Action.emitRefresh]

/-- Results of the builtin transport commands of one click
(playerctl_player_play_pause, playerctl_player_previous,
playerctl_player_next). -/
structure ClickEnv where
  playPauseR : Except String Unit
  previousR : Except String Unit
  nextR : Except String Unit
deriving DecidableEq

/-- The builtin transport command a click can issue. -/
inductive BuiltinCmd
  | playPause
  | previous
  | next
deriving DecidableEq

/-- Result of Mpris::handleToggle: the bool it returns (handled or not),
delegation to AModule::handleToggle for a configured override command, or a
propagated throw or undefined branch from getPlayerInfo. -/
inductive ToggleRes
  | notHandled
  | handled
  | delegated
  | thrown (msg : String)
  | ub
deriving DecidableEq

/-- The error check after the switch (mpris.cpp lines 273-279): a failed
builtin command is logged and the event reported unhandled, otherwise the
event is handled. -/
def afterSwitch : Except String Unit → ToggleRes
  | Except.ok _ => ToggleRes.handled
  | Except.error _ => ToggleRes.notHandled

/-- Mpris::handleToggle (mpris.cpp lines 245-280).  The pair records which
builtin command was issued (none for a delegated override or a skipped
switch) together with the outcome. -/
def handleToggle (cfg : Config) (hasPlayer : Bool) (fenv : FetchEnv)
    (cenv : ClickEnv) (isPress : Bool) (button : Nat) :
    Option BuiltinCmd × ToggleRes :=
  match getPlayerInfo cfg hasPlayer fenv with
  | FetchResult.dirError m => (none, ToggleRes.thrown m)
  | FetchResult.ub => (none, ToggleRes.ub)
  | FetchResult.noData => (none, ToggleRes.notHandled)
  | FetchResult.info _ =>
    if isPress then
      match button with
      | 1 =>
        match cfg.onClick with
        | some _ => (none, ToggleRes.delegated)
        | none => (some BuiltinCmd.playPause, afterSwitch cenv.playPauseR)
      | 2 =>
        match cfg.onMiddleClick with
        | some _ => (none, ToggleRes.delegated)
        | none => (some BuiltinCmd.previous, afterSwitch cenv.previousR)
      | 3 =>
        match cfg.onRightClick with
        | some _ => (none, ToggleRes.delegated)
        | none => (some BuiltinCmd.next, afterSwitch cenv.nextR)
      | _ => (none, ToggleRes.handled)
    else (none, ToggleRes.handled)

/-- What one dispatched refresh pass leaves behind: the module state, the
error messages logged, and whether the process went down. -/
structure PassOut where
  state : ModState
  logged : List String
  crashed : Bool
deriving DecidableEq

/-- Modelled from the spec: the host dispatch loop that invokes one refresh
pass is not part of this source file (only the throw sites are); section 7 of
the spec states that connection and directory errors are logged and the pass
aborts with no user-visible crash.  The outcome of update is wrapped
accordingly: a thrown connection or directory error is logged and the module
state at the throw point is kept, with nothing published. -/
def dispatchPass (cfg : Config) (st : ModState) (env : UpdateEnv) : PassOut :=
  match update cfg st env with
  | UpdResult.connError m st1 => { state := st1, logged := [m], crashed := false }
  | UpdResult.dirError m st1 => { state := st1, logged := [m], crashed := false }
  | UpdResult.ub => { state := st, logged := [], crashed := true }
  | UpdResult.fmtError st1 => { state := st1, logged := [], crashed := true }
  | UpdResult.done st1 _ => { state := st1, logged := [], crashed := false }

/-- A concrete configuration naming one fixed player, with no overrides; used
to instantiate theorems at concrete inputs. -/
def exampleConfig : Config :=
  { player := ("spotify")
    ignoredPlayers := []
    format := DEFAULT_FORMAT
    formatPlaying := []
    formatPaused := []
    formatStopped := []
    playerIcons := none
    statusIcons := none
    onClick := none
    onMiddleClick := none
    onRightClick := none
    interval := 0 }

/-- A template referencing only the title placeholder. -/
def tmplTitle : Template := [TItem.ph ("title")]

/-- exampleConfig with the title-only template as its format. -/
def cfgTitle : Config := { exampleConfig with format := tmplTitle }

/-- exampleConfig targeting the playerctld aggregate alias. -/
def cfgPctld : Config := { exampleConfig with player := ("playerctld") }

/-- exampleConfig with an override command bound to the middle button. -/
def cfgMid : Config := { exampleConfig with onMiddleClick := some ("exec foo") }

/-- A fetch environment in which every query succeeds with a full set of
fields. -/
def fetchOk : FetchEnv :=
  { rawStatus := some ("Playing")
    playbackStatus := PlaybackStatus.Playing
    listPlayers := Except.ok []
    artistR := Except.ok (some ("A"))
    albumR := Except.ok (some ("B"))
    titleR := Except.ok (some ("C"))
    lengthR := Except.ok (some ("125000000")) }

/-- fetchOk with the artist query reporting a GError. -/
def fetchFieldErr : FetchEnv := { fetchOk with artistR := Except.error ("query failed") }

/-- fetchOk with the artist query returning NULL (no artist). -/
def fetchNoArtist : FetchEnv := { fetchOk with artistR := Except.ok none }

/-- fetchOk with the status query returning a NULL pointer. -/
def fetchNullStatus : FetchEnv := { fetchOk with rawStatus := none }

/-- fetchOk with the status query returning an empty (but non-NULL) string. -/
def fetchEmptyStatus : FetchEnv := { fetchOk with rawStatus := some ("") }

/-- fetchOk with the player stopped. -/
def fetchStopped : FetchEnv :=
  { fetchOk with rawStatus := some ("Stopped"), playbackStatus := PlaybackStatus.Stopped }

/-- fetchOk with the player listing failing. -/
def fetchListErr : FetchEnv := { fetchOk with listPlayers := Except.error ("dbus failure") }

/-- The snapshot getPlayerInfo produces from fetchOk under exampleConfig. -/
def infoOk : PlayerInfo :=
  { name := ("spotify")
    status := PlaybackStatus.Playing
    status_string := ("playing")
    artist := some ("A")
    album := some ("B")
    title := some ("C")
    length := some ("02:05") }

/-- infoOk without an artist. -/
def infoNoArtist : PlayerInfo := { infoOk with artist := none }

/-- The snapshot produced when the raw status string is empty. -/
def infoEmptyStatus : PlayerInfo := { infoOk with status_string := ("") }

/-- The snapshot produced from fetchStopped. -/
def infoStopped : PlayerInfo :=
  { infoOk with status := PlaybackStatus.Stopped, status_string := ("stopped") }

/-- A snapshot with the four optional fields present, using the values of the
specification's rendering example. -/
def infoAll : PlayerInfo :=
  { name := ("spotify")
    status := PlaybackStatus.Playing
    status_string := ("playing")
    artist := some ("A")
    album := some ("B")
    title := some ("C")
    length := some ("03:21") }

/-- A snapshot in which only the title is present. -/
def infoTitleOnly : PlayerInfo :=
  { name := ("spotify")
    status := PlaybackStatus.Playing
    status_string := ("playing")
    title := some ("C") }

/-- A module state with a connected player and a blank display. -/
def stExample : ModState :=
  { hasPlayer := true
    display :=
      { visible := false, label := (""), classes := [], lastStatus := (""),
        lastPlayer := ("") } }

/-- An update environment whose fetch succeeds with full fields. -/
def envOkU : UpdateEnv := { connectR := Except.ok (), fetch := fetchOk }

/-- An update environment whose fetch lacks an artist. -/
def envNoArtistU : UpdateEnv := { connectR := Except.ok (), fetch := fetchNoArtist }

/-- An update environment whose fetch reports a stopped player. -/
def envStoppedU : UpdateEnv := { connectR := Except.ok (), fetch := fetchStopped }

/-- An update environment whose player listing fails. -/
def envListErrU : UpdateEnv := { connectR := Except.ok (), fetch := fetchListErr }

/-- A click environment in which every builtin command succeeds. -/
def cenvOk : ClickEnv :=
  { playPauseR := Except.ok (), previousR := Except.ok (), nextR := Except.ok () }

/-- The text appended for the length component of the dynamic string. -/
def lengthSuffix : Option String → String
  | some l => (" <small>[") ++ l ++ ("]</small>")
  | none => ("")

/-- The names of the nine arguments handed to fmt::format. -/
def knownArgNames : List String :=
  [("player"), ("status"), ("artist"), ("title"), ("album"), ("length"),
   ("dynamic"), ("player_icon"), ("status_icon")]

/-- The escape of a single character is never the empty list. -/
theorem escapeChar_ne_nil (c : Char) : escapeChar c ≠ [] := by
  unfold escapeChar
  split_ifs <;> first | decide | simp

/-- The escape of a non-empty character list is non-empty. -/
theorem escapeChars_ne_nil (c : Char) (cs : List Char) : escapeChars (c :: cs) ≠ [] := by
  intro h
  simp only [escapeChars] at h
  exact escapeChar_ne_nil c (List.append_eq_nil.mp h).1

/-- The markup escape of a non-empty string is non-empty. -/
theorem escapeMarkup_ne_empty (s : String) (h : s.length > 0) : escapeMarkup s ≠ ("") := by
  obtain ⟨data⟩ := s
  cases data with
  | nil => exact absurd h (by decide)
  | cons c cs =>
    intro hcon
    have hd : escapeChars (c :: cs) = [] := congrArg String.data hcon
    exact escapeChars_ne_nil c cs hd

/-- A formatted duration string is never empty. -/
theorem formatLength_some_ne (n : Int) (s : String) (h : formatLength n = some s) :
    s ≠ ("") := by
  intro hcon
  subst hcon
  simp only [formatLength] at h
  split_ifs at h <;>
    first
      | exact Option.noConfusion h
      | (have hs := Option.some.inj h
         have hlen := congrArg String.length hs
         simp only [String.length_append] at hlen
         have h4 : (":" : String).length = 1 := rfl
         have h0 : ("" : String).length = 0 := rfl
         rw [h4, h0] at hlen
         omega)

/-- A stored optional field is never the empty string. -/
theorem fieldVal_some_ne (o : Option String) (s : String) (h : fieldVal o = some s) :
    s ≠ ("") := by
  cases o with
  | none => simp [fieldVal] at h
  | some v =>
    simp only [fieldVal] at h
    split_ifs at h with hv
    exact (Option.some.inj h) ▸ escapeMarkup_ne_empty v hv

/-- A stored length field is never the empty string. -/
theorem lengthVal_some_ne (o : Option String) (s : String) (h : lengthVal o = some s) :
    s ≠ ("") := by
  cases o with
  | none => simp [lengthVal] at h
  | some ls => exact formatLength_some_ne (strtolDec ls) s h

/-- C3: the duration conversion at the three documented inputs.  Zero
microseconds yields no length field and 125000000 microseconds yields 02:05,
as documented; but 3661000000 microseconds yields 01:01:3601, not 01:01:01:
the seconds remainder is computed from (len - len_m), so the hour is left
inside the seconds field. -/
theorem claim_C3 :
    formatLength 0 = none ∧
    formatLength 125000000 = some ("02:05") ∧
    formatLength 3661000000 = some ("01:01:3601") ∧
    formatLength 3661000000 ≠ some ("01:01:01") := by
  refine ⟨rfl, rfl, rfl, ?_⟩
  decide

/-- C6: on an appearance signal for any player name the callback first sleeps
one second, then drops the player handle (even though the appearing player
may be unrelated), then requests exactly one refresh; on a vanish signal for
any player name the handle is dropped and exactly one refresh is requested
immediately, with no sleep in the trace. -/
theorem claim_C6 (nm : String) :
    onPlayerNameAppeared nm =
      [Action.sleepSec 1, Action.clearPlayer, Action.emitRefresh] ∧
    onPlayerNameVanished nm = [Action.clearPlayer, Action.emitRefresh] ∧
    (onPlayerNameAppeared nm).count Action.emitRefresh = 1 ∧
    (onPlayerNameVanished nm).count Action.emitRefresh = 1 ∧
    (∀ k, Action.sleepSec k ∈ onPlayerNameVanished nm → False) ∧
    (onPlayerNameAppeared nm).indexOf (Action.sleepSec 1) <
      (onPlayerNameAppeared nm).indexOf Action.emitRefresh := by
  refine ⟨rfl, rfl, rfl, rfl, ?_, ?_⟩
  · intro k hk
    simp [onPlayerNameVanished] at hk
  · have h : onPlayerNameAppeared nm =
        [Action.sleepSec 1, Action.clearPlayer, Action.emitRefresh] := rfl
    rw [h]
    decide

/-- C2 (counterexample): with artist A, album B, title C and length 03:21 all
present, the dynamic string is A - B - C followed by the length wrapped in
small markup tags, not the claimed A - B - C [03:21]; and with only the title
present the builder dereferences the absent album optional (undefined
behavior) instead of rendering C. -/
theorem claim_C2_counterexample :
    buildDynamic infoAll ≠ some ("A - B - C [03:21]") ∧
    buildDynamic infoAll = some ("A - B - C <small>[03:21]</small>") ∧
    buildDynamic infoTitleOnly ≠ some ("C") ∧
    buildDynamic infoTitleOnly = none := by decide

/-- C2 (amended): the dynamic builder is defined only when album and title
are both present, because the missing braces make the dereferences of
*info.album and *info.title unconditional.  When both are present it
concatenates artist (if present), album and title, separated by the three
character separator, and appends the length wrapped in small markup tags when
present: with all fields present the result is
artist - album - title followed by the small-wrapped bracketed length. -/
theorem claim_C2 (i : PlayerInfo) :
    ((i.album = none ∨ i.title = none) → buildDynamic i = none) ∧
    (∀ a al t, i.artist = some a → i.album = some al → i.title = some t →
      buildDynamic i =
        some (a ++ (" - ") ++ al ++ (" - ") ++ t ++ lengthSuffix i.length)) ∧
    (∀ al t, i.artist = none → i.album = some al → i.title = some t →
      buildDynamic i = some (al ++ (" - ") ++ t ++ lengthSuffix i.length)) := by
  obtain ⟨nm, st, ss, aOpt, alOpt, tOpt, lOpt⟩ := i
  refine ⟨?_, ?_, ?_⟩
  · rintro (h | h)
    · subst h
      simp [buildDynamic]
    · subst h
      cases alOpt <;> simp [buildDynamic]
  · intro a al t ha hal ht
    subst ha
    subst hal
    subst ht
    cases lOpt <;>
      simp [buildDynamic, lengthSuffix, String.append_assoc, String.append_empty]
  · intro al t ha hal ht
    subst ha
    subst hal
    subst ht
    cases lOpt <;>
      simp [buildDynamic, lengthSuffix, String.append_assoc, String.append_empty,
        String.empty_append]

/-- Witness for the amended C2 at a concrete snapshot without an artist. -/
theorem claim_C2_witness :
    buildDynamic infoNoArtist =
      some (("B") ++ (" - ") ++ ("C") ++ lengthSuffix infoNoArtist.length) :=
  (claim_C2 infoNoArtist).2.2 ("B") ("C") rfl rfl rfl

/-- Witness for C6 at a concrete player name. -/
theorem claim_C6_witness :
    onPlayerNameAppeared ("spotify") =
      [Action.sleepSec 1, Action.clearPlayer, Action.emitRefresh] ∧
    onPlayerNameVanished ("spotify") = [Action.clearPlayer, Action.emitRefresh] ∧
    (onPlayerNameAppeared ("spotify")).count Action.emitRefresh = 1 ∧
    (onPlayerNameVanished ("spotify")).count Action.emitRefresh = 1 ∧
    (∀ k, Action.sleepSec k ∈ onPlayerNameVanished ("spotify") → False) ∧
    (onPlayerNameAppeared ("spotify")).indexOf (Action.sleepSec 1) <
      (onPlayerNameAppeared ("spotify")).indexOf Action.emitRefresh :=
  claim_C6 ("spotify")

/-- Inversion of a successful fetch: a snapshot is produced only from a
connected player, a successfully resolved name that is not ignored, a
non-NULL status and four successful field queries, and its fields are the
stored forms of exactly those query results. -/
theorem getPlayerInfo_info_inv (cfg : Config) (hp : Bool) (env : FetchEnv)
    (i : PlayerInfo) (h : getPlayerInfo cfg hp env = FetchResult.info i) :
    hp = true ∧
    ∃ nm raw aOpt alOpt tOpt lOpt,
      resolveName cfg env = Except.ok nm ∧
      cfg.ignoredPlayers.contains nm = false ∧
      env.rawStatus = some raw ∧
      env.artistR = Except.ok aOpt ∧
      env.albumR = Except.ok alOpt ∧
      env.titleR = Except.ok tOpt ∧
      env.lengthR = Except.ok lOpt ∧
      i = { name := nm, status := env.playbackStatus,
            status_string := lowerFirst raw,
            artist := fieldVal aOpt, album := fieldVal alOpt,
            title := fieldVal tOpt, length := lengthVal lOpt } := by
  cases hp with
  | false => simp [getPlayerInfo] at h
  | true =>
    refine ⟨rfl, ?_⟩
    unfold getPlayerInfo at h
    rw [if_neg (by simp)] at h
    split at h
    · exact absurd h (by simp)
    · rename_i nm hE
      split at h
      · exact absurd h (by simp)
      · rename_i hig
        split at h
        · exact absurd h (by simp)
        · rename_i raw hR
          split at h
          · exact absurd h (by simp)
          · rename_i aOpt hA
            split at h
            · exact absurd h (by simp)
            · rename_i alOpt hAl
              split at h
              · exact absurd h (by simp)
              · rename_i tOpt hT
                split at h
                · exact absurd h (by simp)
                · rename_i lOpt hL
                  refine ⟨nm, raw, aOpt, alOpt, tOpt, lOpt, hE,
                    Bool.not_eq_true _ ▸ eq_false_of_ne_true hig, hR, hA, hAl, hT, hL, ?_⟩
                  exact (FetchResult.info.inj h).symm

/-- Inversion of the undefined branch: the fetch reaches the NULL status
write only when a player is connected and the status pointer is NULL. -/
theorem getPlayerInfo_ub_inv (cfg : Config) (hp : Bool) (env : FetchEnv)
    (h : getPlayerInfo cfg hp env = FetchResult.ub) :
    env.rawStatus = none ∧ hp = true := by
  cases hp with
  | false => simp [getPlayerInfo] at h
  | true =>
    refine ⟨?_, rfl⟩
    unfold getPlayerInfo at h
    rw [if_neg (by simp)] at h
    split at h
    · exact absurd h (by simp)
    · split at h
      · exact absurd h (by simp)
      · split at h
        · rename_i hR
          exact hR
        · split at h
          · exact absurd h (by simp)
          · split at h
            · exact absurd h (by simp)
            · split at h
              · exact absurd h (by simp)
              · split at h
                · exact absurd h (by simp)
                · exact absurd h (by simp)

/-- C1: the fetch yields either a snapshot built from four successful field
queries, each stored field non-empty, or no data; when any of the artist,
album, title or length queries reports an error the whole snapshot is
aborted and the fetch returns no data.  The hypotheses exclude the two
non-returning branches treated in C5 and C10: a listing failure (which
throws) and a NULL status pointer (undefined behavior). -/
theorem claim_C1 (cfg : Config) (hasPlayer : Bool) (env : FetchEnv)
    (hst : env.rawStatus.isSome = true)
    (hls : cfg.player = ("playerctld") → exOk env.listPlayers = true) :
    ((exOk env.artistR = false ∨ exOk env.albumR = false ∨ exOk env.titleR = false ∨
        exOk env.lengthR = false) →
      getPlayerInfo cfg hasPlayer env = FetchResult.noData) ∧
    (∀ i, getPlayerInfo cfg hasPlayer env = FetchResult.info i →
      (exOk env.artistR = true ∧ exOk env.albumR = true ∧ exOk env.titleR = true ∧
        exOk env.lengthR = true) ∧
      (∀ s, i.artist = some s → s ≠ ("")) ∧
      (∀ s, i.album = some s → s ≠ ("")) ∧
      (∀ s, i.title = some s → s ≠ ("")) ∧
      (∀ s, i.length = some s → s ≠ (""))) := by
  have hEx : ∃ nm, resolveName cfg env = Except.ok nm := by
    unfold resolveName
    by_cases hpl : cfg.player = ("playerctld")
    · rw [if_pos hpl]
      cases hlp : env.listPlayers with
      | error m =>
        have := hls hpl
        rw [hlp] at this
        exact absurd this (by simp [exOk])
      | ok players => exact ⟨players.headD cfg.player, rfl⟩
    · rw [if_neg hpl]
      exact ⟨cfg.player, rfl⟩
  obtain ⟨nm, hEok⟩ := hEx
  obtain ⟨raw, hRs⟩ := Option.isSome_iff_exists.mp hst
  constructor
  · intro herr
    cases hasPlayer with
    | false => simp [getPlayerInfo]
    | true =>
      by_cases hig : cfg.ignoredPlayers.contains nm = true
      · have hig2 : nm ∈ cfg.ignoredPlayers := by simpa using hig
        simp [getPlayerInfo, hEok, hig2]
      · rcases herr with hx | hx | hx | hx
        · cases hA : env.artistR with
          | error m => simp [getPlayerInfo, hEok, hig, hRs, hA]
          | ok aOpt =>
            rw [hA] at hx
            simp [exOk] at hx
        · cases hA : env.artistR with
          | error m => simp [getPlayerInfo, hEok, hig, hRs, hA]
          | ok aOpt =>
            cases hAl : env.albumR with
            | error m => simp [getPlayerInfo, hEok, hig, hRs, hA, hAl]
            | ok alOpt =>
              rw [hAl] at hx
              simp [exOk] at hx
        · cases hA : env.artistR with
          | error m => simp [getPlayerInfo, hEok, hig, hRs, hA]
          | ok aOpt =>
            cases hAl : env.albumR with
            | error m => simp [getPlayerInfo, hEok, hig, hRs, hA, hAl]
            | ok alOpt =>
              cases hT : env.titleR with
              | error m => simp [getPlayerInfo, hEok, hig, hRs, hA, hAl, hT]
              | ok tOpt =>
                rw [hT] at hx
                simp [exOk] at hx
        · cases hA : env.artistR with
          | error m => simp [getPlayerInfo, hEok, hig, hRs, hA]
          | ok aOpt =>
            cases hAl : env.albumR with
            | error m => simp [getPlayerInfo, hEok, hig, hRs, hA, hAl]
            | ok alOpt =>
              cases hT : env.titleR with
              | error m => simp [getPlayerInfo, hEok, hig, hRs, hA, hAl, hT]
              | ok tOpt =>
                cases hL : env.lengthR with
                | error m => simp [getPlayerInfo, hEok, hig, hRs, hA, hAl, hT, hL]
                | ok lOpt =>
                  rw [hL] at hx
                  simp [exOk] at hx
  · intro i h
    obtain ⟨-, nm2, raw2, aOpt, alOpt, tOpt, lOpt, -, -, -, hA, hAl, hT, hL, hi⟩ :=
      getPlayerInfo_info_inv cfg hasPlayer env i h
    subst hi
    refine ⟨⟨by rw [hA]; rfl, by rw [hAl]; rfl, by rw [hT]; rfl, by rw [hL]; rfl⟩,
      ?_, ?_, ?_, ?_⟩
    · intro s hs
      exact fieldVal_some_ne aOpt s hs
    · intro s hs
      exact fieldVal_some_ne alOpt s hs
    · intro s hs
      exact fieldVal_some_ne tOpt s hs
    · intro s hs
      exact lengthVal_some_ne lOpt s hs

/-- Witness for C1: the artist query error aborts to no data, and the
all-success fetch yields a snapshot with a non-empty artist. -/
theorem claim_C1_witness :
    getPlayerInfo exampleConfig true fetchFieldErr = FetchResult.noData ∧
    (∀ s, infoOk.artist = some s → s ≠ ("")) :=
  ⟨(claim_C1 exampleConfig true fetchFieldErr rfl (by decide)).1 (Or.inl rfl),
   ((claim_C1 exampleConfig true fetchOk rfl (by decide)).2 infoOk (by decide)).2.1⟩

/-- C8: every snapshot carries one of the three lowercase status tokens,
given that the status query of the bus reports one of the three documented
playerctl status strings (the fetch lowercases only the first character, so
this external contract is what makes the invariant hold). -/
theorem claim_C8 (cfg : Config) (hp : Bool) (env : FetchEnv) (i : PlayerInfo)
    (hraw : env.rawStatus = some ("Playing") ∨ env.rawStatus = some ("Paused") ∨
      env.rawStatus = some ("Stopped"))
    (h : getPlayerInfo cfg hp env = FetchResult.info i) :
    i.status_string = ("playing") ∨ i.status_string = ("paused") ∨
      i.status_string = ("stopped") := by
  obtain ⟨-, nm, raw, aOpt, alOpt, tOpt, lOpt, -, -, hR, -, -, -, -, hi⟩ :=
    getPlayerInfo_info_inv cfg hp env i h
  subst hi
  rcases hraw with hx | hx | hx <;> rw [hR] at hx
  · have hre := Option.some.inj hx
    subst hre
    exact Or.inl (show lowerFirst ("Playing") = ("playing") by decide)
  · have hre := Option.some.inj hx
    subst hre
    exact Or.inr (Or.inl (show lowerFirst ("Paused") = ("paused") by decide))
  · have hre := Option.some.inj hx
    subst hre
    exact Or.inr (Or.inr (show lowerFirst ("Stopped") = ("stopped") by decide))

/-- Witness for C8 at the concrete all-success fetch. -/
theorem claim_C8_witness :
    infoOk.status_string = ("playing") ∨ infoOk.status_string = ("paused") ∨
      infoOk.status_string = ("stopped") :=
  claim_C8 exampleConfig true fetchOk infoOk (Or.inl rfl) (by decide)

/-- C10 (counterexample): on an empty but non-NULL status string the fetch is
defined — it returns a full snapshot rather than hitting any undefined
branch — so totality does not require a non-empty status string; the
returned snapshot merely carries an empty status token. -/
theorem claim_C10_counterexample :
    fetchEmptyStatus.rawStatus = some ("") ∧
    getPlayerInfo exampleConfig true fetchEmptyStatus =
      FetchResult.info infoEmptyStatus ∧
    infoEmptyStatus.status_string = ("") := by decide

/-- C10 (amended): the fetch lowercases the first character of the raw status
with no NULL or emptiness check; its only undefined branch is the NULL
status pointer.  It hits that branch exactly when a player is connected, the
resolved name is not ignored and the status query returned NULL; on any
non-NULL status string — including the empty one — the fetch never reaches
the undefined branch. -/
theorem claim_C10 (cfg : Config) (hp : Bool) (env : FetchEnv) :
    (getPlayerInfo cfg hp env = FetchResult.ub → env.rawStatus = none) ∧
    (∀ s, env.rawStatus = some s → getPlayerInfo cfg hp env ≠ FetchResult.ub) ∧
    (∀ nm, hp = true → resolveName cfg env = Except.ok nm →
      cfg.ignoredPlayers.contains nm = false → env.rawStatus = none →
      getPlayerInfo cfg hp env = FetchResult.ub) := by
  refine ⟨?_, ?_, ?_⟩
  · intro h
    exact (getPlayerInfo_ub_inv cfg hp env h).1
  · intro s hs hcon
    rw [(getPlayerInfo_ub_inv cfg hp env hcon).1] at hs
    exact Option.noConfusion hs
  · intro nm hhp hE hig hR
    subst hhp
    have hig2 : nm ∉ cfg.ignoredPlayers := by simpa using hig
    simp [getPlayerInfo, hE, hR, hig2]

/-- Witness for the amended C10: the NULL status pointer is reached and
undefined for a concrete connected fetch. -/
theorem claim_C10_witness :
    getPlayerInfo exampleConfig true fetchNullStatus = FetchResult.ub :=
  (claim_C10 exampleConfig true fetchNullStatus).2.2 ("spotify") rfl rfl rfl rfl

/-- C9: for a snapshot whose status is Stopped, the update pass hides the
output and returns before the class updates, template selection and label
formatting: label, classes and remembered class names are unchanged, the
output is not visible, and no template — in particular not the configured
format-stopped — is handed to the formatter. -/
theorem claim_C9 (cfg : Config) (st : ModState) (env : UpdateEnv) (i : PlayerInfo)
    (hp : st.hasPlayer = true)
    (hf : getPlayerInfo cfg true env.fetch = FetchResult.info i)
    (hstop : i.status = PlaybackStatus.Stopped) :
    update cfg st env =
      UpdResult.done { st with display := { st.display with visible := false } }
        none := by
  obtain ⟨hpv, disp⟩ := st
  replace hp : hpv = true := hp
  subst hp
  simp [update, hf, hstop]

/-- Witness for C9 at a concrete stopped snapshot. -/
theorem claim_C9_witness :
    update exampleConfig stExample envStoppedU =
      UpdResult.done
        { stExample with display := { stExample.display with visible := false } }
        none :=
  claim_C9 exampleConfig stExample envStoppedU infoStopped rfl (by decide) rfl

/-- C5: a connection failure and a player-listing failure each abort only the
current pass: the thrown message is logged by the dispatch loop (modelled
from the spec), the module state and display are left as they were, and the
process does not go down. -/
theorem claim_C5 (cfg : Config) (st : ModState) (env : UpdateEnv) :
    (∀ m, st.hasPlayer = false → env.connectR = Except.error m →
      dispatchPass cfg st env =
        { state := st,
          logged := [("unable to connect to player ") ++ cfg.player ++ (": ") ++ m],
          crashed := false }) ∧
    (∀ m, st.hasPlayer = true → cfg.player = ("playerctld") →
      env.fetch.listPlayers = Except.error m →
      dispatchPass cfg st env =
        { state := st, logged := [("unable to list players: ") ++ m],
          crashed := false }) := by
  constructor
  · intro m hp hc
    obtain ⟨hpv, disp⟩ := st
    replace hp : hpv = false := hp
    subst hp
    simp [dispatchPass, update, hc]
  · intro m hp hpl hlst
    obtain ⟨hpv, disp⟩ := st
    replace hp : hpv = true := hp
    subst hp
    have hgpi : getPlayerInfo cfg true env.fetch =
        FetchResult.dirError (("unable to list players: ") ++ m) := by
      have hE : resolveName cfg env.fetch =
          Except.error (("unable to list players: ") ++ m) := by
        simp [resolveName, hpl, hlst]
      simp [getPlayerInfo, hE]
    simp [dispatchPass, update, hgpi]

/-- Witness for C5 at a concrete listing failure under the aggregate alias. -/
theorem claim_C5_witness :
    dispatchPass cfgPctld stExample envListErrU =
      { state := stExample,
        logged := [("unable to list players: ") ++ ("dbus failure")],
        crashed := false } :=
  (claim_C5 cfgPctld stExample envListErrU).2 ("dbus failure") rfl rfl rfl

/-- C7: with a snapshot present, a configured override command for the
clicked button delegates to the generic handler and issues no builtin
command (in particular a middle click with an override never issues the
builtin previous command); without an override, button 1 issues play-pause,
button 2 previous, button 3 next, and the result of the builtin command
decides the handled flag: an error is reported as not handled, success as
handled. -/
theorem claim_C7 (cfg : Config) (hp : Bool) (fenv : FetchEnv) (cenv : ClickEnv)
    (i : PlayerInfo) (hf : getPlayerInfo cfg hp fenv = FetchResult.info i) :
    (cfg.onClick.isSome = true →
      handleToggle cfg hp fenv cenv true 1 = (none, ToggleRes.delegated)) ∧
    (cfg.onMiddleClick.isSome = true →
      handleToggle cfg hp fenv cenv true 2 = (none, ToggleRes.delegated)) ∧
    (cfg.onRightClick.isSome = true →
      handleToggle cfg hp fenv cenv true 3 = (none, ToggleRes.delegated)) ∧
    (cfg.onClick = none →
      handleToggle cfg hp fenv cenv true 1 =
        (some BuiltinCmd.playPause, afterSwitch cenv.playPauseR)) ∧
    (cfg.onMiddleClick = none →
      handleToggle cfg hp fenv cenv true 2 =
        (some BuiltinCmd.previous, afterSwitch cenv.previousR)) ∧
    (cfg.onRightClick = none →
      handleToggle cfg hp fenv cenv true 3 =
        (some BuiltinCmd.next, afterSwitch cenv.nextR)) ∧
    (∀ m, afterSwitch (Except.error m) = ToggleRes.notHandled) ∧
    afterSwitch (Except.ok ()) = ToggleRes.handled := by
  refine ⟨?_, ?_, ?_, ?_, ?_, ?_, fun m => rfl, rfl⟩
  · intro h
    obtain ⟨v, hv⟩ := Option.isSome_iff_exists.mp h
    simp [handleToggle, hf, hv]
  · intro h
    obtain ⟨v, hv⟩ := Option.isSome_iff_exists.mp h
    simp [handleToggle, hf, hv]
  · intro h
    obtain ⟨v, hv⟩ := Option.isSome_iff_exists.mp h
    simp [handleToggle, hf, hv]
  · intro h
    simp [handleToggle, hf, h]
  · intro h
    simp [handleToggle, hf, h]
  · intro h
    simp [handleToggle, hf, h]

/-- Witness for C7: a middle click with a configured override delegates and
issues no builtin command. -/
theorem claim_C7_witness :
    handleToggle cfgMid true fetchOk cenvOk true 2 = (none, ToggleRes.delegated) :=
  (claim_C7 cfgMid true fetchOk cenvOk infoOk (by decide)).2.1 rfl

/-- The dynamic builder is undefined whenever album or title is absent. -/
theorem buildDynamic_none_of (i : PlayerInfo) (h : i.album = none ∨ i.title = none) :
    buildDynamic i = none := by
  obtain ⟨nm, st, ss, aOpt, alOpt, tOpt, lOpt⟩ := i
  rcases h with h | h
  · subst h
    simp [buildDynamic]
  · subst h
    cases alOpt <;> simp [buildDynamic]

/-- Value of the dynamic builder when all three text fields are present. -/
theorem buildDynamic_some_all (i : PlayerInfo) (a al t : String)
    (ha : i.artist = some a) (hal : i.album = some al) (ht : i.title = some t) :
    buildDynamic i =
      some (a ++ (" - ") ++ al ++ (" - ") ++ t ++ lengthSuffix i.length) := by
  obtain ⟨nm, st, ss, aOpt, alOpt, tOpt, lOpt⟩ := i
  subst ha
  subst hal
  subst ht
  cases lOpt <;>
    simp [buildDynamic, lengthSuffix, String.append_assoc, String.append_empty]

/-- Value of the dynamic builder when album and title are present and the
artist is absent. -/
theorem buildDynamic_some_noartist (i : PlayerInfo) (al t : String)
    (ha : i.artist = none) (hal : i.album = some al) (ht : i.title = some t) :
    buildDynamic i = some (al ++ (" - ") ++ t ++ lengthSuffix i.length) := by
  obtain ⟨nm, st, ss, aOpt, alOpt, tOpt, lOpt⟩ := i
  subst ha
  subst hal
  subst ht
  cases lOpt <;>
    simp [buildDynamic, lengthSuffix, String.append_assoc, String.append_empty,
      String.empty_append]

/-- Each of the nine known argument names has an entry in an argument list of
the shape buildArgs produces. -/
theorem lookup_args_known (nm : String) (hnm : nm ∈ knownArgNames)
    (v1 v2 v3 v4 v5 v6 v7 v8 v9 : String) :
    (List.lookup nm [(("player"), v1), (("status"), v2), (("artist"), v3),
      (("title"), v4), (("album"), v5), (("length"), v6), (("dynamic"), v7),
      (("player_icon"), v8), (("status_icon"), v9)]).isSome = true := by
  simp only [knownArgNames] at hnm
  fin_cases hnm <;> rfl

/-- A successfully built argument list resolves every known argument name. -/
theorem buildArgs_lookup (cfg : Config) (i : PlayerInfo) (dyn : String)
    (args : List (String × String)) (h : buildArgs cfg i dyn = some args)
    (nm : String) (hnm : nm ∈ knownArgNames) : (args.lookup nm).isSome = true := by
  unfold buildArgs at h
  split at h
  · have hinj := Option.some.inj h
    rw [← hinj]
    exact lookup_args_known nm hnm _ _ _ _ _ _ _ _ _
  · exact Option.noConfusion h

/-- Substitution succeeds whenever every placeholder of the template has a
matching argument. -/
theorem renderTemplate_isSome (tmpl : Template) (args : List (String × String))
    (h : ∀ nm, TItem.ph nm ∈ tmpl → (args.lookup nm).isSome = true) :
    (renderTemplate tmpl args).isSome = true := by
  induction tmpl with
  | nil => rfl
  | cons it rest ih =>
    have hrest := ih (fun nm hm => h nm (List.mem_cons_of_mem _ hm))
    cases it with
    | lit s =>
      cases hr : renderTemplate rest args with
      | none =>
        rw [hr] at hrest
        exact absurd hrest (by simp)
      | some r => simp [renderTemplate, hr]
    | ph nm =>
      have hl := h nm (List.mem_cons_self _ _)
      cases hlk : args.lookup nm with
      | none =>
        rw [hlk] at hl
        exact absurd hl (by simp)
      | some v =>
        cases hr : renderTemplate rest args with
        | none =>
          rw [hr] at hrest
          exact absurd hrest (by simp)
        | some r => simp [renderTemplate, hlk, hr]

/-- C4 (counterexample): a snapshot whose title is present, rendered under a
template that references only the title placeholder, still does not render:
the pass is undefined because the absent artist optional is dereferenced
while the argument list is built, before any placeholder is substituted. -/
theorem claim_C4_counterexample :
    getPlayerInfo cfgTitle true envNoArtistU.fetch = FetchResult.info infoNoArtist ∧
    infoNoArtist.title = some ("C") ∧
    infoNoArtist.artist = none ∧
    selectTemplate cfgTitle infoNoArtist.status = [TItem.ph ("title")] ∧
    update cfgTitle stExample envNoArtistU = UpdResult.ub := by decide

/-- C4 (amended): rendering does not depend on which placeholders the
selected template references.  The fmt::format argument list dereferences all
four optional fields up front, and the dynamic builder dereferences album and
title, so for a non-stopped snapshot the pass is undefined whenever any of
artist, album, title or length is absent; it renders — output made visible,
the selected template consumed — whenever all four are present and the
selected template uses only the nine known placeholder names. -/
theorem claim_C4 (cfg : Config) (st : ModState) (env : UpdateEnv) (i : PlayerInfo)
    (hp : st.hasPlayer = true)
    (hf : getPlayerInfo cfg true env.fetch = FetchResult.info i)
    (hns : i.status ≠ PlaybackStatus.Stopped) :
    ((i.artist = none ∨ i.album = none ∨ i.title = none ∨ i.length = none) →
      update cfg st env = UpdResult.ub) ∧
    ((∃ a, i.artist = some a) → (∃ al, i.album = some al) →
      (∃ t, i.title = some t) → (∃ l, i.length = some l) →
      (∀ nm, TItem.ph nm ∈ selectTemplate cfg i.status → nm ∈ knownArgNames) →
      ∃ st2, update cfg st env =
          UpdResult.done st2 (some (selectTemplate cfg i.status)) ∧
        st2.display.visible = true) := by
  obtain ⟨hpv, disp⟩ := st
  replace hp : hpv = true := hp
  subst hp
  obtain ⟨nm2, sta, ss2, aOpt, alOpt, tOpt, lOpt⟩ := i
  constructor
  · intro habs
    cases aOpt <;> cases alOpt <;> cases tOpt <;> cases lOpt <;>
      simp_all [update, buildDynamic, buildArgs]
  · rintro ⟨a, ha⟩ ⟨al, hal⟩ ⟨t, ht⟩ ⟨l, hl⟩ hph
    subst ha
    subst hal
    subst ht
    subst hl
    cases hdyn : buildDynamic
        { name := nm2, status := sta, status_string := ss2, artist := some a,
          album := some al, title := some t, length := some l } with
    | none =>
      have hall := buildDynamic_some_all
        { name := nm2, status := sta, status_string := ss2, artist := some a,
          album := some al, title := some t, length := some l } a al t rfl rfl rfl
      rw [hdyn] at hall
      exact Option.noConfusion hall
    | some dyn =>
      cases hargs : buildArgs cfg
          { name := nm2, status := sta, status_string := ss2, artist := some a,
            album := some al, title := some t, length := some l } dyn with
      | none => simp [buildArgs] at hargs
      | some args =>
        obtain ⟨r, hr⟩ := Option.isSome_iff_exists.mp
          (renderTemplate_isSome (selectTemplate cfg sta) args
            (fun nm3 hm => buildArgs_lookup cfg _ dyn args hargs nm3 (hph nm3 hm)))
        refine ⟨{ hasPlayer := true,
                  display :=
                    { visible := true, label := r,
                      classes := updClass (updClass disp.classes disp.lastStatus ss2)
                        disp.lastPlayer nm2,
                      lastStatus := ss2, lastPlayer := nm2 } }, ?_, rfl⟩
        simp [update, hf, hns, hdyn, hargs, hr]

/-- Witness for the amended C4 at the concrete all-present snapshot under the
default format. -/
theorem claim_C4_witness :
    ∃ st2, update exampleConfig stExample envOkU =
        UpdResult.done st2 (some (selectTemplate exampleConfig infoOk.status)) ∧
      st2.display.visible = true :=
  (claim_C4 exampleConfig stExample envOkU infoOk rfl (by decide) (by decide)).2
    ⟨("A"), rfl⟩ ⟨("B"), rfl⟩ ⟨("C"), rfl⟩ ⟨("02:05"), rfl⟩
    (by
      intro nm hm
      have hsel : selectTemplate exampleConfig infoOk.status = DEFAULT_FORMAT := rfl
      rw [hsel] at hm
      simp [DEFAULT_FORMAT] at hm
      rcases hm with h | h | h <;> subst h <;> decide)

end Mpris
